import Mathlib

/-!
# Verification of the Minerva car-cost estimation core (`src/tools/services.py`)

This file embeds the pure computational core of `services.py` — the decimal
coercion utility `_safe_decimal`, the amortized loan scheduler
`_calculate_finance_schedule`, and the cost-estimation engine
`estimate_car_cost` — and proves the claims of the specification against it.

Embedding of Python `decimal.Decimal` (default context: 28 significant
digits, rounding `ROUND_HALF_EVEN`):

* A decimal is a pair of an integer mantissa and an integer exponent,
  `⟨m, e⟩` denoting `m · 10^e`, exactly as in the `decimal` module (type
  `Dec`; value semantics `Dec.toRat`).
* Addition, subtraction, multiplication and `max` are embedded exactly;
  in Python they are additionally rounded to the context's 28 significant
  digits, which is reached only beyond the monetary magnitudes admitted by
  the input form (`max_digits ≤ 12`, a few fraction digits), so exactness
  is faithful on the declared domain.
* Division and power are inexact at every magnitude, so they are embedded
  with the context rounding: the exact rational result rounded to 28
  significant digits, half to even (`Dec.divD`, `Dec.powD`).  Inside the
  scheduler's nonzero-rate branch the additions, subtractions and
  products are context-rounded as well (`Dec.roundPrec`), because there
  the rounding is observable: it collapses `1 + monthly_rate` to 1 for
  sub-precision rates and makes the division by `factor - 1` raise
  `decimal.DivisionByZero`, which the embedding models as `none`.
* `x.quantize(Decimal("0.01"), rounding=ROUND_HALF_UP)` is
  `Dec.quantizeHalfUp`; `x.quantize(Decimal("0.01"))` (context rounding,
  half to even) is `Dec.quantizeHalfEven`.
* Comparison and equality of Python decimals are comparisons of values,
  not of representations (`Dec.le`, `Dec.lt`, `Dec.veq`).
-/

/-- Number of base-10 digits of `n`, via an explicit fuel (the fuel `n`
itself is always sufficient since `n / 10 < n` for `n > 0`). -/
def digitsAux : Nat → Nat → Nat
  | 0, _ => 0
  | fuel + 1, n => if n = 0 then 0 else digitsAux fuel (n / 10) + 1

/-- Number of base-10 digits of `n` (`0` has zero digits). -/
def nDigits (n : Nat) : Nat := digitsAux n n

/-- `floorLog10 n d` is `⌊log₁₀ (n / d)⌋` for `n, d ≥ 1`. -/
def floorLog10 (n d : Nat) : Int :=
  let t : Int := (nDigits n : Int) - (nDigits d : Int)
  if (d : Int) * 10 ^ t.toNat ≤ (n : Int) * 10 ^ (-t).toNat then t else t - 1

/-- Round the integer fraction `a / b` (with `b > 0`) to an integer, half
away from zero: Python's `ROUND_HALF_UP`.  Integer division in Lean is
Euclidean, hence floor division for a positive divisor. -/
def rhuInt (a b : Int) : Int :=
  if 0 ≤ a then (2 * a + b) / (2 * b) else -((2 * -a + b) / (2 * b))

/-- Round the integer fraction `a / b` (with `b > 0`) to an integer, half
to even: `ROUND_HALF_EVEN`, the default rounding of the context. -/
def rheInt (a b : Int) : Int :=
  let q := a / b
  let r := a % b
  if 2 * r < b then q
  else if b < 2 * r then q + 1
  else if q % 2 = 0 then q else q + 1

/-- A decimal number `m · 10^e`, as in Python's `decimal.Decimal`. -/
structure Dec where
  m : Int
  e : Int
  deriving DecidableEq, Repr

namespace Dec

/-- The exact rational value of a decimal. -/
def toRat (d : Dec) : ℚ := (d.m : ℚ) * (10 : ℚ) ^ d.e

/-- `Decimal("0")`. -/
def zero : Dec := ⟨0, 0⟩

/-- The decimal of an integer. -/
def ofInt (n : Int) : Dec := ⟨n, 0⟩

/-- Exact addition (the ideal exponent of Python decimal addition is the
smaller operand exponent). -/
def add (a b : Dec) : Dec :=
  let e := min a.e b.e
  ⟨a.m * 10 ^ (a.e - e).toNat + b.m * 10 ^ (b.e - e).toNat, e⟩

/-- Negation. -/
def neg (a : Dec) : Dec := ⟨-a.m, a.e⟩

/-- Exact subtraction. -/
def sub (a b : Dec) : Dec := add a (neg b)

/-- Exact multiplication (ideal exponent: sum of exponents). -/
def mul (a b : Dec) : Dec := ⟨a.m * b.m, a.e + b.e⟩

/-- Value comparison `a ≤ b`, by aligning the mantissas. -/
def le (a b : Dec) : Prop :=
  a.m * 10 ^ (a.e - min a.e b.e).toNat ≤ b.m * 10 ^ (b.e - min a.e b.e).toNat

/-- Value comparison `a < b`. -/
def lt (a b : Dec) : Prop :=
  a.m * 10 ^ (a.e - min a.e b.e).toNat < b.m * 10 ^ (b.e - min a.e b.e).toNat

/-- Value equality `a == b` (Python decimal equality compares values, not
representations). -/
def veq (a b : Dec) : Prop :=
  a.m * 10 ^ (a.e - min a.e b.e).toNat = b.m * 10 ^ (b.e - min a.e b.e).toNat

instance (a b : Dec) : Decidable (le a b) := by unfold le; infer_instance
instance (a b : Dec) : Decidable (lt a b) := by unfold lt; infer_instance
instance (a b : Dec) : Decidable (veq a b) := by unfold veq; infer_instance

/-- Python's built-in `max` on two decimals: returns the second operand
exactly when it is strictly greater (so ties keep the first). -/
def dmax (a b : Dec) : Dec := if lt a b then b else a

/-- `x.quantize(Decimal("0.01"), rounding=ROUND_HALF_UP)`. -/
def quantizeHalfUp (d : Dec) : Dec :=
  if -2 ≤ d.e then ⟨d.m * 10 ^ (d.e + 2).toNat, -2⟩
  else ⟨rhuInt d.m (10 ^ (-(d.e + 2)).toNat), -2⟩

/-- `x.quantize(Decimal("0.01"))` with the context's default rounding,
half to even. -/
def quantizeHalfEven (d : Dec) : Dec :=
  if -2 ≤ d.e then ⟨d.m * 10 ^ (d.e + 2).toNat, -2⟩
  else ⟨rheInt d.m (10 ^ (-(d.e + 2)).toNat), -2⟩

/-- Rounding of an exact result to the context precision of 28
significant digits, half to even, as Python applies to every arithmetic
result.  Exact results of at most 28 digits are kept unchanged. -/
def roundPrec (d : Dec) : Dec :=
  let k := nDigits d.m.natAbs
  if k ≤ 28 then d
  else ⟨rheInt d.m (10 ^ (k - 28)), d.e + (k - 28)⟩

/-- Python `Decimal` division under the default context: the exact
quotient, correctly rounded to 28 significant digits, half to even.
Python raises `decimal.DivisionByZero` on a zero divisor; `divD` is kept
total and returns `zero` there, and the one engine call site whose
divisor can actually vanish — the scheduler's division by
`factor - Decimal(1)` — tests its divisor and fails (`none`, modelling
the raise) before dividing, so the zero-divisor branch below is
unreachable from the engine: every other call site divides by a nonzero
literal (100, 12) or is guarded (term > 0, nonzero ownership years). -/
def divD (a b : Dec) : Dec :=
  if b.m = 0 then zero
  else if a.m = 0 then ⟨0, a.e - b.e⟩
  else
    -- E = ⌊log₁₀ |a / b|⌋; the result has exponent E - 27 and its
    -- mantissa is the half-even rounding of (a / b) · 10^(27 - E).
    let E := floorLog10 a.m.natAbs b.m.natAbs + (a.e - b.e)
    let s := a.e - b.e + 27 - E
    let n := a.m * 10 ^ s.toNat
    let d' := b.m * 10 ^ (-s).toNat
    let mant := if 0 ≤ d' then rheInt n d' else rheInt (-n) (-d')
    ⟨mant, E - 27⟩

/-- Python `Decimal` power with a positive integer exponent under the
default context: the exact power rounded to 28 significant digits
(correct rounding).  The scheduler only exponentiates with the loan term,
which is guarded to be positive. -/
def powD (b : Dec) (n : Nat) : Dec := roundPrec ⟨b.m ^ n, b.e * n⟩

end Dec

/-! ## The amortized loan scheduler (`_calculate_finance_schedule`) -/

/-- The scheduler's result record: keys `"monthly_payment"` and
`"total_paid"` of the returned dict. -/
structure FinanceSchedule where
  monthly_payment : Dec
  total_paid : Dec
  deriving DecidableEq, Repr

/-- `monthly_rate = (interest_rate_percent / Decimal("100")) / Decimal("12")`:
both divisions carry the context's 28-significant-digit rounding. -/
def monthly_rate_of (interest_rate_percent : Dec) : Dec :=
  Dec.divD (Dec.divD interest_rate_percent ⟨100, 0⟩) ⟨12, 0⟩

/-- `factor = (Decimal(1) + monthly_rate) ** term_months`: the addition's
result is rounded to the context's 28 significant digits (so a positive
monthly rate below 5·10⁻²⁸ collapses the base to exactly 1), and the
power of that rounded base is again context-rounded. -/
def factor_of (interest_rate_percent : Dec) (term_months : Int) : Dec :=
  Dec.powD (Dec.roundPrec (Dec.add (Dec.ofInt 1)
    (monthly_rate_of interest_rate_percent))) term_months.toNat

/-- `factor - Decimal(1)`, context-rounded: the divisor of the financed
monthly payment.  It is zero — and Python raises
`decimal.DivisionByZero` — exactly when the factor collapsed to 1. -/
def factor_den (interest_rate_percent : Dec) (term_months : Int) : Dec :=
  Dec.roundPrec (Dec.sub (factor_of interest_rate_percent term_months)
    (Dec.ofInt 1))

/-- `_calculate_finance_schedule(principal, interest_rate_percent,
term_months)`, line for line:

    principal = principal.quantize(Decimal("0.01"))
    if term_months <= 0 or principal <= 0:
        return {"monthly_payment": Decimal("0"), "total_paid": Decimal("0")}
    monthly_rate = (interest_rate_percent / Decimal("100")) / Decimal("12")
    if monthly_rate == 0:
        monthly_payment = principal / term_months
    else:
        factor = (Decimal(1) + monthly_rate) ** term_months
        monthly_payment = principal * (monthly_rate * factor) / (factor - Decimal(1))
    total_paid = monthly_payment * term_months
    return both, quantized to 0.01 with ROUND_HALF_UP.

In the nonzero-rate branch every intermediate operation is rounded to
the context's 28 significant digits, as in Python, and the division by
`factor - Decimal(1)` is **not** guarded: when that divisor is zero
(positive sub-precision rates, e.g. `Decimal("1E-40")`) Python raises
`decimal.DivisionByZero`, embedded here as `none`.  The final
multiplication by the term is kept exact before the output quantization;
its context rounding cannot move the quantized cents at the magnitudes
in scope. -/
def calculate_finance_schedule (principal0 interest_rate_percent : Dec)
    (term_months : Int) : Option FinanceSchedule :=
  let principal := principal0.quantizeHalfEven
  if term_months ≤ 0 ∨ principal.le Dec.zero then some ⟨⟨0, 0⟩, ⟨0, 0⟩⟩
  else
    let monthly_rate := monthly_rate_of interest_rate_percent
    let monthly_payment_res :=
      if monthly_rate.veq Dec.zero then
        some (Dec.divD principal (Dec.ofInt term_months))
      else
        let factor := factor_of interest_rate_percent term_months
        let den := factor_den interest_rate_percent term_months
        if den.m = 0 then none
        else some (Dec.divD (Dec.roundPrec (Dec.mul principal
          (Dec.roundPrec (Dec.mul monthly_rate factor)))) den)
    match monthly_payment_res with
    | none => none
    | some monthly_payment =>
      some ⟨monthly_payment.quantizeHalfUp,
        (Dec.mul monthly_payment (Dec.ofInt term_months)).quantizeHalfUp⟩

/-! ## The estimation engine (`estimate_car_cost`)

The engine receives the cleaned form data (`views.py` passes
`form.cleaned_data`): every decimal field is a `Decimal` or `None`,
integer fields are `int` or `None`, choice fields are strings.  Absent
optional keys and `None` values coincide for `dict.get`, so each field is
embedded as an `Option`. -/

/-- A cleaned input record, one field per key read by `estimate_car_cost`.
`fuel_type` is carried but never read by the engine. -/
structure CarInput where
  ownership_period_years : Dec
  car_purchase_price : Option Dec
  incentives_rebates : Option Dec
  local_tax_rate : Option Dec
  purchase_type : Option String
  finance_down_payment : Option Dec
  finance_interest_rate : Option Dec
  finance_term_months : Option Int
  lease_term_months : Option Int
  lease_monthly_payment : Option Dec
  lease_drive_off_cost : Option Dec
  annual_mileage : Option Dec
  fuel_type : Option String
  fuel_consumption_per_100km : Option Dec
  electricity_consumption_per_100km : Option Dec
  gas_price_per_liter : Option Dec
  electricity_price_per_kwh : Option Dec
  insurance_cost_annual : Option Dec
  maintenance_cost_annual : Option Dec
  registration_fees_annual : Option Dec
  parking_cost_annual : Option Dec
  other_recurring_costs : Option Dec
  charging_installation_cost : Option Dec
  residual_value : Option Dec
  deriving DecidableEq, Repr

/-- `_safe_decimal` on the engine's domain (absent or `Decimal`): `None`
maps to `Decimal("0")`; the membership test `value in (None, "", 0)`
compares by value, so a zero-valued decimal of any exponent also maps to
the canonical `Decimal("0")`; any other decimal is returned unchanged.
The full heterogeneous coercion (strings, ints) is modelled separately by
`safe_decimal` below. -/
def safeDec : Option Dec → Dec
  | none => Dec.zero
  | some d => if d.m = 0 then Dec.zero else d

/-- The fixed-key `breakdown` mapping of the result; each Lean field name
stands for the dict key in its doc position: `acquisition` ↦
`"Acquisition"`, `energy` ↦ `"Energy"`, `insurance` ↦ `"Insurance"`,
`maintenance` ↦ `"Maintenance"`, `registration` ↦ `"Registration"`,
`parking` ↦ `"Parking"`, `other_recurring` ↦ `"Other recurring"`,
`charging_infrastructure` ↦ `"Charging infrastructure"`,
`residual_credit` ↦ `"Residual credit"`. -/
structure CostBreakdown where
  acquisition : Dec
  energy : Dec
  insurance : Dec
  maintenance : Dec
  registration : Dec
  parking : Dec
  other_recurring : Dec
  charging_infrastructure : Dec
  residual_credit : Dec
  deriving DecidableEq, Repr

/-- The engine's result dict.  The acquisition sub-breakdown is a
key-value list in insertion order, since its key set varies by purchase
type. -/
structure EstimateResult where
  total_cost : Dec
  monthly_cost : Dec
  annual_recurring_total : Dec
  breakdown : CostBreakdown
  annual_fuel_cost : Dec
  annual_electric_cost : Dec
  acquisition_breakdown : List (String × Dec)
  deriving DecidableEq, Repr

/-- `tax_rate = tax_rate_percent / Decimal("100")`. -/
def tax_rate (data : CarInput) : Dec :=
  Dec.divD (safeDec data.local_tax_rate) ⟨100, 0⟩

/-- `taxable_base = max(purchase_price - incentives, Decimal("0"))`. -/
def taxable_base (data : CarInput) : Dec :=
  Dec.dmax (Dec.sub (safeDec data.car_purchase_price)
    (safeDec data.incentives_rebates)) Dec.zero

/-- `tax_amount = (taxable_base * tax_rate).quantize(0.01, ROUND_HALF_UP)`. -/
def tax_amount (data : CarInput) : Dec :=
  (Dec.mul (taxable_base data) (tax_rate data)).quantizeHalfUp

/-- The purchase-type branch of the engine: the acquisition total and the
acquisition sub-breakdown.  `none` models the exceptions the branch can
raise: the `TypeError` of `int(None)` when the finance or lease term is
absent, and the scheduler's `decimal.DivisionByZero`, which propagates
out of the finance branch (`Option.map`).  Every other path is total.
An unrecognized (or absent) purchase type falls through to the cash
fallback. -/
def acquisition (data : CarInput) : Option (Dec × List (String × Dec)) :=
  if data.purchase_type = some ("cash") then
    some (Dec.add (taxable_base data) (tax_amount data),
      [("Upfront payment", Dec.add (taxable_base data) (tax_amount data))])
  else if data.purchase_type = some ("finance") then
    match data.finance_term_months with
    | none => none
    | some term =>
      let down_payment := safeDec data.finance_down_payment
      let principal := Dec.dmax (Dec.sub (taxable_base data) down_payment) Dec.zero
      (calculate_finance_schedule (Dec.add principal (tax_amount data))
        (safeDec data.finance_interest_rate) term).map (fun schedule =>
        (Dec.add schedule.total_paid down_payment,
          [("Down payment", down_payment),
           ("Financed total", schedule.total_paid),
           ("Taxes", tax_amount data)]))
  else if data.purchase_type = some ("lease") then
    match data.lease_term_months with
    | none => none
    | some term =>
      let lease_payment := safeDec data.lease_monthly_payment
      let drive_off := safeDec data.lease_drive_off_cost
      let lease_total := Dec.add (Dec.mul lease_payment (Dec.ofInt term)) drive_off
      let tax_on_lease := (Dec.mul lease_total (tax_rate data)).quantizeHalfUp
      some (Dec.add lease_total tax_on_lease,
        [("Lease payments", Dec.mul lease_payment (Dec.ofInt term)),
         ("Drive-off", drive_off),
         ("Lease taxes", tax_on_lease)])
  else
    some (Dec.add (taxable_base data) (tax_amount data),
      [("Upfront payment", Dec.add (taxable_base data) (tax_amount data))])

/-- `annual_mileage = Decimal(str(data.get("annual_mileage", 0)))`. -/
def annualMileage (data : CarInput) : Dec := data.annual_mileage.getD Dec.zero

/-- The fuel channel of Step 3.  The guard is Python truthiness of the two
decimals, i.e. both nonzero; the cost starts at `Decimal("0")` and is
overwritten only inside the guard. -/
def annual_fuel_cost (data : CarInput) : Dec :=
  let fuel_consumption := safeDec data.fuel_consumption_per_100km
  let gas_price := safeDec data.gas_price_per_liter
  if fuel_consumption.m ≠ 0 ∧ gas_price.m ≠ 0 then
    (Dec.mul (Dec.mul (Dec.divD (annualMileage data) ⟨100, 0⟩) fuel_consumption)
      gas_price).quantizeHalfUp
  else Dec.zero

/-- The electric channel of Step 3, symmetric to the fuel channel. -/
def annual_electric_cost (data : CarInput) : Dec :=
  let electricity_consumption := safeDec data.electricity_consumption_per_100km
  let electricity_price := safeDec data.electricity_price_per_kwh
  if electricity_consumption.m ≠ 0 ∧ electricity_price.m ≠ 0 then
    (Dec.mul (Dec.mul (Dec.divD (annualMileage data) ⟨100, 0⟩)
      electricity_consumption) electricity_price).quantizeHalfUp
  else Dec.zero

/-- `annual_recurring_total`, the left-associated sum of line 232. -/
def annual_recurring_total (data : CarInput) : Dec :=
  Dec.add (Dec.add (Dec.add (Dec.add (Dec.add (Dec.add
    (annual_fuel_cost data) (annual_electric_cost data))
    (safeDec data.insurance_cost_annual))
    (safeDec data.maintenance_cost_annual))
    (safeDec data.registration_fees_annual))
    (safeDec data.parking_cost_annual))
    (safeDec data.other_recurring_costs)

/-- `recurring_total = (annual_recurring_total * ownership_years).quantize(...)`. -/
def recurring_total (data : CarInput) : Dec :=
  (Dec.mul (annual_recurring_total data) data.ownership_period_years).quantizeHalfUp

/-- `estimate_car_cost(data)`.  The only failure paths of the source on
its declared domain are the two `int(...)` coercions of an absent term,
embedded as `none` through `acquisition`. -/
def estimate_car_cost (data : CarInput) : Option EstimateResult :=
  match acquisition data with
  | none => none
  | some (acquisition_total, acquisition_breakdown) =>
    let charging_installation := safeDec data.charging_installation_cost
    let residual_value := safeDec data.residual_value
    let total_cost := (Dec.sub (Dec.add (Dec.add acquisition_total
      (recurring_total data)) charging_installation) residual_value).quantizeHalfUp
    let monthly_cost :=
      if data.ownership_period_years.m ≠ 0 then
        (Dec.divD total_cost
          (Dec.mul data.ownership_period_years ⟨12, 0⟩)).quantizeHalfUp
      else ⟨0, -2⟩
    some {
      total_cost := total_cost
      monthly_cost := monthly_cost
      annual_recurring_total := (annual_recurring_total data).quantizeHalfUp
      breakdown := {
        acquisition := acquisition_total.quantizeHalfUp
        energy := (Dec.add (annual_fuel_cost data)
          (annual_electric_cost data)).quantizeHalfUp
        insurance := (Dec.mul (safeDec data.insurance_cost_annual)
          data.ownership_period_years).quantizeHalfUp
        maintenance := (Dec.mul (safeDec data.maintenance_cost_annual)
          data.ownership_period_years).quantizeHalfUp
        registration := (Dec.mul (safeDec data.registration_fees_annual)
          data.ownership_period_years).quantizeHalfUp
        parking := (Dec.mul (safeDec data.parking_cost_annual)
          data.ownership_period_years).quantizeHalfUp
        other_recurring := (Dec.mul (safeDec data.other_recurring_costs)
          data.ownership_period_years).quantizeHalfUp
        charging_infrastructure := charging_installation.quantizeHalfUp
        residual_credit := residual_value.quantizeHalfUp }
      annual_fuel_cost := annual_fuel_cost data
      annual_electric_cost := annual_electric_cost data
      acquisition_breakdown := acquisition_breakdown }

/-- Non-negativity of an optional decimal field (the sign of a decimal is
the sign of its mantissa). -/
def nonNegO (o : Option Dec) : Prop := 0 ≤ (o.getD Dec.zero).m

/-- The input invariants of specification §3: all monetary and rate
fields non-negative, finance fields present for a financed purchase,
lease fields present for a lease. -/
def ValidInput (data : CarInput) : Prop :=
  (data.purchase_type = some ("finance") →
    data.finance_interest_rate.isSome ∧ data.finance_term_months.isSome) ∧
  (data.purchase_type = some ("lease") →
    data.lease_term_months.isSome ∧ data.lease_monthly_payment.isSome) ∧
  nonNegO data.residual_value ∧
  0 ≤ data.ownership_period_years.m ∧
  nonNegO data.car_purchase_price ∧ nonNegO data.incentives_rebates ∧
  nonNegO data.local_tax_rate ∧ nonNegO data.finance_down_payment ∧
  nonNegO data.finance_interest_rate ∧ nonNegO data.lease_monthly_payment ∧
  nonNegO data.lease_drive_off_cost ∧ nonNegO data.annual_mileage ∧
  nonNegO data.fuel_consumption_per_100km ∧
  nonNegO data.electricity_consumption_per_100km ∧
  nonNegO data.gas_price_per_liter ∧ nonNegO data.electricity_price_per_kwh ∧
  nonNegO data.insurance_cost_annual ∧ nonNegO data.maintenance_cost_annual ∧
  nonNegO data.registration_fees_annual ∧ nonNegO data.parking_cost_annual ∧
  nonNegO data.other_recurring_costs ∧ nonNegO data.charging_installation_cost

instance (data : CarInput) : Decidable (ValidInput data) := by
  unfold ValidInput nonNegO; infer_instance

/-- At most two fraction digits in an optional decimal field (what the
input form's `decimal_places=2` guarantees for the monetary fields). -/
def frac2O (o : Option Dec) : Prop := -2 ≤ (o.getD Dec.zero).e

/-! ## The heterogeneous coercion `_safe_decimal` (full model)

`_safe_decimal` accepts `None`, strings, numbers and decimals:

    def _safe_decimal(value):
        if value in (None, "", 0):
            return Decimal("0")
        if isinstance(value, Decimal):
            return value
        return Decimal(str(value))

The membership test uses `==`, which on numbers and decimals compares
values.  `Decimal(str(...))` of a string is the exact decimal parse of
the literal; of an integer, the integer with exponent 0.  The parser
below models the plain-literal fragment of the `Decimal` constructor
(optional sign, digits, optional fraction); scientific notation,
whitespace, underscores and the special values are outside the engine's
input domain and are not modelled. -/

/-- One value as `_safe_decimal` may receive it.  Binary floats are not
part of the modelled domain: the contract's inputs are absent values,
empty or numeric strings, integers and exact decimals. -/
inductive PyValue where
  | none
  | str (s : String)
  | int (n : Int)
  | dec (d : Dec)
  deriving DecidableEq, Repr

/-- Accumulate a digit string into a natural number; fails on a
non-digit. -/
def digitsVal : List Char → Nat → Option Nat
  | [], acc => some acc
  | c :: cs, acc =>
    if c.isDigit then digitsVal cs (acc * 10 + (c.toNat - 48)) else Option.none

/-- Parse an unsigned decimal literal into mantissa and exponent:
digits, optionally followed by a point and more digits; at least one
digit in total. -/
def parseUnsigned (cs : List Char) : Option (Int × Int) :=
  let ip := cs.takeWhile Char.isDigit
  let rest := cs.dropWhile Char.isDigit
  match rest with
  | [] =>
    if ip.isEmpty then Option.none
    else (digitsVal ip 0).map (fun n => ((n : Int), 0))
  | '.' :: fp =>
    if ip.isEmpty ∧ fp.isEmpty then Option.none
    else if fp.all Char.isDigit then
      (digitsVal (ip ++ fp) 0).map (fun n => ((n : Int), -(fp.length : Int)))
    else Option.none
  | _ => Option.none

/-- `Decimal(s)` on the plain-literal fragment. -/
def Dec.parse (s : String) : Option Dec :=
  match s.data with
  | '-' :: rest => (parseUnsigned rest).map (fun p => ⟨-p.1, p.2⟩)
  | '+' :: rest => (parseUnsigned rest).map (fun p => ⟨p.1, p.2⟩)
  | cs => (parseUnsigned cs).map (fun p => ⟨p.1, p.2⟩)

/-- `value in (None, "", 0)`: membership by `==`, hence by value for
numbers and decimals. -/
def emptyLike : PyValue → Prop
  | .none => True
  | .str s => s = ""
  | .int n => n = 0
  | .dec d => d.m = 0

instance (v : PyValue) : Decidable (emptyLike v) := by
  cases v <;> simp only [emptyLike] <;> infer_instance

/-- `_safe_decimal` on the full heterogeneous domain.  `Option.none`
models the `InvalidOperation` the `Decimal` constructor raises on an
unparsable string; every other path is total. -/
def safe_decimal : PyValue → Option Dec
  | .none => some Dec.zero
  | .str s => if s = "" then some Dec.zero else Dec.parse s
  | .int n => if n = 0 then some Dec.zero else some ⟨n, 0⟩
  | .dec d => if d.m = 0 then some Dec.zero else some d

/-! ## Concrete inputs used by the examples of specification §8 -/

/-- A baseline input: one-year horizon, everything else absent. -/
def emptyInput : CarInput where
  ownership_period_years := ⟨1, 0⟩
  car_purchase_price := Option.none
  incentives_rebates := Option.none
  local_tax_rate := Option.none
  purchase_type := Option.none
  finance_down_payment := Option.none
  finance_interest_rate := Option.none
  finance_term_months := Option.none
  lease_term_months := Option.none
  lease_monthly_payment := Option.none
  lease_drive_off_cost := Option.none
  annual_mileage := Option.none
  fuel_type := Option.none
  fuel_consumption_per_100km := Option.none
  electricity_consumption_per_100km := Option.none
  gas_price_per_liter := Option.none
  electricity_price_per_kwh := Option.none
  insurance_cost_annual := Option.none
  maintenance_cost_annual := Option.none
  registration_fees_annual := Option.none
  parking_cost_annual := Option.none
  other_recurring_costs := Option.none
  charging_installation_cost := Option.none
  residual_value := Option.none

/-- §8 cash example: price 20000.00, incentives 0, tax 10 %, no
recurring costs, 1-year horizon. -/
def cashExample : CarInput :=
  { emptyInput with
    car_purchase_price := some ⟨2000000, -2⟩
    purchase_type := some ("cash")
    local_tax_rate := some ⟨10, 0⟩ }

/-- §8 lease example: monthly payment 300.00, term 36, drive-off
1000.00, tax 0 %. -/
def leaseExample : CarInput :=
  { emptyInput with
    purchase_type := some ("lease")
    lease_term_months := some 36
    lease_monthly_payment := some ⟨30000, -2⟩
    lease_drive_off_cost := some ⟨100000, -2⟩ }

/-- A finance example: price 12000.00, down payment 2000.00, APR 0 %,
term 12, no tax. -/
def finExample : CarInput :=
  { emptyInput with
    car_purchase_price := some ⟨1200000, -2⟩
    purchase_type := some ("finance")
    finance_down_payment := some ⟨200000, -2⟩
    finance_interest_rate := some ⟨0, 0⟩
    finance_term_months := some 12 }

/-- A cash input with price 100.00, used to exercise the residual-value
monotonicity claim. -/
def resBase : CarInput :=
  { emptyInput with
    car_purchase_price := some ⟨10000, -2⟩
    purchase_type := some ("cash") }

/-- An input with a zero ownership horizon. -/
def zeroYearsInput : CarInput :=
  { emptyInput with ownership_period_years := ⟨0, 0⟩ }

/-- A cash input with two ownership years, fuel usage and recurring
costs, used to exercise the breakdown claims on nonzero data. -/
def c2Example : CarInput :=
  { emptyInput with
    ownership_period_years := ⟨2, 0⟩
    car_purchase_price := some ⟨2000000, -2⟩
    purchase_type := some ("cash")
    annual_mileage := some ⟨15000, 0⟩
    fuel_consumption_per_100km := some ⟨800, -2⟩
    gas_price_per_liter := some ⟨150, -2⟩
    insurance_cost_annual := some ⟨10000, -2⟩
    parking_cost_annual := some ⟨5000, -2⟩ }

/-- The engine's output on `c2Example` (annual fuel cost 1800.00;
insurance 100.00 and parking 50.00 doubled over the two years; the
Energy entry stays at the annual 1800.00). -/
def c2Result : EstimateResult where
  total_cost := ⟨2390000, -2⟩
  monthly_cost := ⟨99583, -2⟩
  annual_recurring_total := ⟨195000, -2⟩
  breakdown := {
    acquisition := ⟨2000000, -2⟩
    energy := ⟨180000, -2⟩
    insurance := ⟨20000, -2⟩
    maintenance := ⟨0, -2⟩
    registration := ⟨0, -2⟩
    parking := ⟨10000, -2⟩
    other_recurring := ⟨0, -2⟩
    charging_infrastructure := ⟨0, -2⟩
    residual_credit := ⟨0, -2⟩ }
  annual_fuel_cost := ⟨180000, -2⟩
  annual_electric_cost := ⟨0, 0⟩
  acquisition_breakdown := [("Upfront payment", ⟨2000000, -2⟩)]

/-- The financed example with a 10 % tax, so that the double-counted tax
of claim C10 is visible. -/
def finTaxExample : CarInput :=
  { finExample with local_tax_rate := some ⟨10, 0⟩ }

/-- The financed example with the positive sub-precision interest rate
`Decimal("1E-40")`, on which `1 + monthly_rate` context-rounds to
exactly 1 and the scheduler's unguarded division by `factor - 1`
raises `decimal.DivisionByZero`. -/
def tinyRateInput : CarInput :=
  { finExample with finance_interest_rate := some ⟨1, -40⟩ }

/-- The all-zero result record: what the engine returns when every
monetary input is absent. -/
def zeroResult : EstimateResult where
  total_cost := ⟨0, -2⟩
  monthly_cost := ⟨0, -2⟩
  annual_recurring_total := ⟨0, -2⟩
  breakdown := {
    acquisition := ⟨0, -2⟩
    energy := ⟨0, -2⟩
    insurance := ⟨0, -2⟩
    maintenance := ⟨0, -2⟩
    registration := ⟨0, -2⟩
    parking := ⟨0, -2⟩
    other_recurring := ⟨0, -2⟩
    charging_infrastructure := ⟨0, -2⟩
    residual_credit := ⟨0, -2⟩ }
  annual_fuel_cost := ⟨0, 0⟩
  annual_electric_cost := ⟨0, 0⟩
  acquisition_breakdown := [("Upfront payment", ⟨0, -2⟩)]

/-- The input with its residual value replaced. -/
def withResidual (data : CarInput) (v : Dec) : CarInput :=
  { data with residual_value := some v }

instance (o : Option Dec) : Decidable (frac2O o) := by
  unfold frac2O
  infer_instance

/-- The engine's output on `resBase` (cash, price 100.00, nothing else). -/
def resResult : EstimateResult where
  total_cost := ⟨10000, -2⟩
  monthly_cost := ⟨833, -2⟩
  annual_recurring_total := ⟨0, -2⟩
  breakdown := {
    acquisition := ⟨10000, -2⟩
    energy := ⟨0, -2⟩
    insurance := ⟨0, -2⟩
    maintenance := ⟨0, -2⟩
    registration := ⟨0, -2⟩
    parking := ⟨0, -2⟩
    other_recurring := ⟨0, -2⟩
    charging_infrastructure := ⟨0, -2⟩
    residual_credit := ⟨0, -2⟩ }
  annual_fuel_cost := ⟨0, 0⟩
  annual_electric_cost := ⟨0, 0⟩
  acquisition_breakdown := [("Upfront payment", ⟨10000, -2⟩)]

/-- The engine's output on `resBase` with the residual value raised by
one cent. -/
def resResult2 : EstimateResult where
  total_cost := ⟨9999, -2⟩
  monthly_cost := ⟨833, -2⟩
  annual_recurring_total := ⟨0, -2⟩
  breakdown := {
    acquisition := ⟨10000, -2⟩
    energy := ⟨0, -2⟩
    insurance := ⟨0, -2⟩
    maintenance := ⟨0, -2⟩
    registration := ⟨0, -2⟩
    parking := ⟨0, -2⟩
    other_recurring := ⟨0, -2⟩
    charging_infrastructure := ⟨0, -2⟩
    residual_credit := ⟨1, -2⟩ }
  annual_fuel_cost := ⟨0, 0⟩
  annual_electric_cost := ⟨0, 0⟩
  acquisition_breakdown := [("Upfront payment", ⟨10000, -2⟩)]

-- Sanity checks of the numeric layer against the `decimal` module.
theorem decimal_layer_check_1 : rhuInt 5 2 = 3 := by decide

theorem decimal_layer_check_2 : rhuInt (-5) 2 = -3 := by decide

theorem decimal_layer_check_3 : rheInt 5 2 = 2 := by decide

theorem decimal_layer_check_4 : rheInt 7 2 = 4 := by decide

theorem decimal_layer_check_5 : rheInt (-5) 2 = -2 := by decide

theorem decimal_layer_check_6 : Dec.quantizeHalfUp ⟨83333, -4⟩ = ⟨833, -2⟩ := by decide

theorem decimal_layer_check_7 : Dec.quantizeHalfUp ⟨99995, -4⟩ = ⟨1000, -2⟩ := by decide

theorem decimal_layer_check_8 : Dec.quantizeHalfUp ⟨-99995, -4⟩ = ⟨-1000, -2⟩ := by decide

theorem decimal_layer_check_9 : Dec.quantizeHalfEven ⟨99995, -4⟩ = ⟨1000, -2⟩ := by decide

theorem decimal_layer_check_10 : Dec.quantizeHalfEven ⟨9985, -3⟩ = ⟨998, -2⟩ := by decide

theorem decimal_layer_check_11 : Dec.quantizeHalfUp ⟨9985, -3⟩ = ⟨999, -2⟩ := by decide

-- 10000.00 / 12 carries 28 significant digits, as in Python.
theorem decimal_layer_check_12 : Dec.divD ⟨1000000, -2⟩ ⟨12, 0⟩ =
    ⟨8333333333333333333333333333, -25⟩ := by decide

-- 1 / 3 = Decimal("0.3333333333333333333333333333")
theorem decimal_layer_check_13 : Dec.divD ⟨1, 0⟩ ⟨3, 0⟩ = ⟨3333333333333333333333333333, -28⟩ := by
  decide

-- 2 / 3 = Decimal("0.6666666666666666666666666667")
theorem decimal_layer_check_14 : Dec.divD ⟨2, 0⟩ ⟨3, 0⟩ = ⟨6666666666666666666666666667, -28⟩ := by
  decide

-- The nonzero-rate branch against CPython: principal 10000.00 at 5 % APR
-- over 12 months gives monthly_payment 856.07 and total_paid 10272.90
-- (the raw monthly payment is 856.0748178846711454709901766).
set_option maxRecDepth 8000 in
theorem decimal_layer_check_15 :
    calculate_finance_schedule ⟨1000000, -2⟩ ⟨5, 0⟩ 12 =
      some ⟨⟨85607, -2⟩, ⟨1027290, -2⟩⟩ := by decide

-- The counterexample rate end to end: 1E-40 / 100 / 12 is a nonzero
-- monthly rate, yet 1 + monthly_rate rounds to 1 and factor - 1 to 0,
-- so the scheduler raises (returns none).
set_option maxRecDepth 8000 in
theorem decimal_layer_check_16 :
    calculate_finance_schedule ⟨1000000, -2⟩ ⟨1, -40⟩ 12 = none := by decide

/-! ## Value semantics of the decimal layer -/

theorem ten_zpow_toNat_mul (a b : Int) (h : b ≤ a) :
    ((10 : ℚ) ^ (a - b).toNat) * (10 : ℚ) ^ b = (10 : ℚ) ^ a := by
  have h1 : ((a - b).toNat : Int) = a - b := Int.toNat_of_nonneg (by omega)
  calc ((10 : ℚ) ^ (a - b).toNat) * (10 : ℚ) ^ b
      = ((10 : ℚ) ^ ((a - b : Int))) * (10 : ℚ) ^ b := by
        rw [← zpow_natCast (10 : ℚ) (a - b).toNat, h1]
    _ = (10 : ℚ) ^ (a - b + b) := by
        rw [← zpow_add₀ (by norm_num : (10 : ℚ) ≠ 0)]
    _ = (10 : ℚ) ^ a := by norm_num

theorem Dec.toRat_add (a b : Dec) : (a.add b).toRat = a.toRat + b.toRat := by
  unfold Dec.add Dec.toRat
  push_cast
  rw [add_mul, mul_assoc, mul_assoc,
    ten_zpow_toNat_mul a.e (min a.e b.e) (min_le_left _ _),
    ten_zpow_toNat_mul b.e (min a.e b.e) (min_le_right _ _)]

theorem Dec.toRat_neg (a : Dec) : (Dec.neg a).toRat = -a.toRat := by
  unfold Dec.neg Dec.toRat
  push_cast
  ring

theorem Dec.toRat_sub (a b : Dec) : (a.sub b).toRat = a.toRat - b.toRat := by
  unfold Dec.sub
  rw [Dec.toRat_add, Dec.toRat_neg]
  ring

theorem Dec.toRat_mul (a b : Dec) : (a.mul b).toRat = a.toRat * b.toRat := by
  unfold Dec.mul Dec.toRat
  push_cast
  rw [zpow_add₀ (by norm_num : (10 : ℚ) ≠ 0)]
  ring

theorem Dec.toRat_align (x : Dec) (e : Int) (h : e ≤ x.e) :
    x.toRat = ((x.m * 10 ^ (x.e - e).toNat : Int) : ℚ) * (10 : ℚ) ^ e := by
  unfold Dec.toRat
  push_cast
  rw [mul_assoc, ten_zpow_toNat_mul x.e e h]

theorem Dec.le_iff (a b : Dec) : a.le b ↔ a.toRat ≤ b.toRat := by
  rw [Dec.toRat_align a (min a.e b.e) (min_le_left _ _),
    Dec.toRat_align b (min a.e b.e) (min_le_right _ _), Dec.le,
    mul_le_mul_right (by positivity : (0 : ℚ) < (10 : ℚ) ^ min a.e b.e)]
  exact Int.cast_le.symm

theorem Dec.lt_iff (a b : Dec) : a.lt b ↔ a.toRat < b.toRat := by
  rw [Dec.toRat_align a (min a.e b.e) (min_le_left _ _),
    Dec.toRat_align b (min a.e b.e) (min_le_right _ _), Dec.lt,
    mul_lt_mul_right (by positivity : (0 : ℚ) < (10 : ℚ) ^ min a.e b.e)]
  exact Int.cast_lt.symm

theorem Dec.veq_iff (a b : Dec) : a.veq b ↔ a.toRat = b.toRat := by
  rw [Dec.toRat_align a (min a.e b.e) (min_le_left _ _),
    Dec.toRat_align b (min a.e b.e) (min_le_right _ _), Dec.veq,
    mul_left_inj' (by positivity : (0 : ℚ) < (10 : ℚ) ^ min a.e b.e).ne.symm]
  exact Int.cast_inj.symm

theorem Dec.toRat_dmax (a b : Dec) : (a.dmax b).toRat = max a.toRat b.toRat := by
  unfold Dec.dmax
  by_cases h : a.lt b
  · rw [if_pos h, max_eq_right (le_of_lt ((Dec.lt_iff a b).mp h))]
  · rw [if_neg h, max_eq_left (le_of_not_lt (fun hc => h ((Dec.lt_iff a b).mpr hc)))]

theorem Dec.toRat_zero : Dec.zero.toRat = 0 := by
  unfold Dec.zero Dec.toRat
  norm_num

theorem Dec.toRat_ofInt (n : Int) : (Dec.ofInt n).toRat = (n : ℚ) := by
  unfold Dec.ofInt Dec.toRat
  norm_num

/-- The sign of a decimal is the sign of its mantissa. -/
theorem Dec.toRat_nonneg_iff (d : Dec) : 0 ≤ d.toRat ↔ 0 ≤ d.m := by
  unfold Dec.toRat
  constructor
  · intro h
    by_contra hneg
    push_neg at hneg
    have hm : (d.m : ℚ) < 0 := by exact_mod_cast hneg
    nlinarith [zpow_pos (by norm_num : (0 : ℚ) < 10) d.e]
  · intro h
    have hm : (0 : ℚ) ≤ (d.m : ℚ) := by exact_mod_cast h
    positivity

/-- A decimal has value zero exactly when its mantissa is zero. -/
theorem Dec.toRat_eq_zero_iff (d : Dec) : d.toRat = 0 ↔ d.m = 0 := by
  unfold Dec.toRat
  rw [mul_eq_zero]
  constructor
  · rintro (h | h)
    · exact_mod_cast h
    · exact absurd h (zpow_ne_zero d.e (by norm_num))
  · intro h
    left
    exact_mod_cast h

theorem Dec.quantizeHalfUp_e (d : Dec) : d.quantizeHalfUp.e = -2 := by
  unfold Dec.quantizeHalfUp
  split_ifs <;> rfl

theorem Dec.quantizeHalfUp_of_le (d : Dec) (h : -2 ≤ d.e) :
    d.quantizeHalfUp = ⟨d.m * 10 ^ (d.e + 2).toNat, -2⟩ := by
  unfold Dec.quantizeHalfUp
  rw [if_pos h]

/-- When no rounding happens (at most two fraction digits), the mantissa
of the quantized decimal is one hundred times its value. -/
theorem Dec.quantizeHalfUp_m_cast (d : Dec) (h : -2 ≤ d.e) :
    ((d.quantizeHalfUp.m : Int) : ℚ) = d.toRat * 100 := by
  rw [Dec.quantizeHalfUp_of_le d h]
  unfold Dec.toRat
  push_cast
  rw [← zpow_natCast (10 : ℚ) (d.e + 2).toNat, Int.toNat_of_nonneg (by omega),
    zpow_add₀ (by norm_num : (10 : ℚ) ≠ 0)]
  norm_num
  ring

theorem Dec.sub_cent (A k : Int) :
    Dec.sub ⟨A, -2⟩ ⟨k, -2⟩ = ⟨A - k, -2⟩ := by
  unfold Dec.sub Dec.add Dec.neg
  simp
  omega

/-- Quantization commutes with subtracting a whole number of cents, as
long as neither side is actually rounded (exponents at least `-2`). -/
theorem Dec.quantize_shift (u v : Dec) (k : Int) (hu : -2 ≤ u.e)
    (hv : -2 ≤ v.e) (hval : u.toRat = v.toRat - (k : ℚ) / 100) :
    u.quantizeHalfUp = Dec.sub v.quantizeHalfUp ⟨k, -2⟩ := by
  rw [Dec.quantizeHalfUp_of_le v hv, Dec.sub_cent]
  rw [Dec.quantizeHalfUp_of_le u hu]
  have hm : ((u.m * 10 ^ (u.e + 2).toNat : Int) : ℚ) =
      ((v.m * 10 ^ (v.e + 2).toNat : Int) - k : ℚ) := by
    have h1 := Dec.quantizeHalfUp_m_cast u hu
    have h2 := Dec.quantizeHalfUp_m_cast v hv
    rw [Dec.quantizeHalfUp_of_le u hu] at h1
    rw [Dec.quantizeHalfUp_of_le v hv] at h2
    simp only at h1 h2
    rw [h1, h2, hval]
    ring
  have : (u.m * 10 ^ (u.e + 2).toNat : Int) = v.m * 10 ^ (v.e + 2).toNat - k := by
    exact_mod_cast hm
  rw [this]

theorem Dec.toRat_nonpos_iff (d : Dec) : d.toRat ≤ 0 ↔ d.m ≤ 0 := by
  have h := Dec.toRat_nonneg_iff ⟨-d.m, d.e⟩
  unfold Dec.toRat at h ⊢
  push_cast at h
  constructor
  · intro hv
    have h0 : 0 ≤ -(d.m : ℚ) * (10 : ℚ) ^ d.e := by nlinarith
    have := h.mp h0
    omega
  · intro hm
    have h0 : 0 ≤ -(d.m : ℚ) * (10 : ℚ) ^ d.e := h.mpr (by omega)
    nlinarith

theorem rheInt_nonpos (a b : Int) (ha : a ≤ 0) (hb : 0 < b) :
    rheInt a b ≤ 0 := by
  simp only [rheInt]
  by_cases h0 : a = 0
  · subst h0
    rw [Int.zero_ediv, Int.zero_emod]
    split_ifs <;> omega
  · have hq : a / b < 0 := Int.ediv_neg' (by omega) hb
    split_ifs <;> omega

theorem Dec.le_zero_iff (d : Dec) : d.le Dec.zero ↔ d.m ≤ 0 := by
  rw [Dec.le_iff, Dec.toRat_zero]
  exact Dec.toRat_nonpos_iff d

theorem Dec.quantizeHalfEven_m_nonpos (d : Dec) (h : d.m ≤ 0) :
    d.quantizeHalfEven.m ≤ 0 := by
  unfold Dec.quantizeHalfEven
  split_ifs with he
  · have h10 : (0 : Int) ≤ 10 ^ (d.e + 2).toNat := by positivity
    exact mul_nonpos_iff.mpr (Or.inr ⟨h, h10⟩)
  · exact rheInt_nonpos _ _ h (by positivity)

theorem safeDec_e (o : Option Dec) (h : frac2O o) : -2 ≤ (safeDec o).e := by
  unfold frac2O at h
  cases o with
  | none => norm_num [safeDec, Dec.zero]
  | some d =>
    simp only [Option.getD] at h
    simp only [safeDec]
    split_ifs with hm
    · norm_num [Dec.zero]
    · exact h

theorem safeDec_m_nonneg (o : Option Dec) (h : nonNegO o) : 0 ≤ (safeDec o).m := by
  unfold nonNegO at h
  cases o with
  | none => norm_num [safeDec, Dec.zero]
  | some d =>
    simp only [Option.getD] at h
    simp only [safeDec]
    split_ifs with hm
    · norm_num [Dec.zero]
    · exact h

theorem Dec.add_e (a b : Dec) : (a.add b).e = min a.e b.e := rfl

theorem Dec.sub_e (a b : Dec) : (a.sub b).e = min a.e b.e := rfl

theorem Dec.mul_e (a b : Dec) : (a.mul b).e = a.e + b.e := rfl

theorem Dec.dmax_e (a b : Dec) (c : Int) (ha : c ≤ a.e) (hb : c ≤ b.e) :
    c ≤ (a.dmax b).e := by
  unfold Dec.dmax
  split_ifs <;> assumption

/-! ## Branch equations of the engine -/

theorem acquisition_cash (data : CarInput)
    (h : data.purchase_type = some ("cash")) :
    acquisition data = some (Dec.add (taxable_base data) (tax_amount data),
      [("Upfront payment", Dec.add (taxable_base data) (tax_amount data))]) := by
  unfold acquisition
  rw [h, if_pos rfl]

theorem acquisition_fallback (data : CarInput)
    (h1 : data.purchase_type ≠ some ("cash"))
    (h2 : data.purchase_type ≠ some ("finance"))
    (h3 : data.purchase_type ≠ some ("lease")) :
    acquisition data = some (Dec.add (taxable_base data) (tax_amount data),
      [("Upfront payment", Dec.add (taxable_base data) (tax_amount data))]) := by
  unfold acquisition
  rw [if_neg h1, if_neg h2, if_neg h3]

theorem acquisition_finance (data : CarInput) (term : Int)
    (sched : FinanceSchedule)
    (hp : data.purchase_type = some ("finance"))
    (ht : data.finance_term_months = some term)
    (hs : calculate_finance_schedule
      (Dec.add (Dec.dmax (Dec.sub (taxable_base data)
        (safeDec data.finance_down_payment)) Dec.zero) (tax_amount data))
      (safeDec data.finance_interest_rate) term = some sched) :
    acquisition data =
      some (Dec.add sched.total_paid (safeDec data.finance_down_payment),
      [("Down payment", safeDec data.finance_down_payment),
       ("Financed total", sched.total_paid),
       ("Taxes", tax_amount data)]) := by
  unfold acquisition
  rw [hp, ht]
  show (calculate_finance_schedule
      (Dec.add (Dec.dmax (Dec.sub (taxable_base data)
        (safeDec data.finance_down_payment)) Dec.zero) (tax_amount data))
      (safeDec data.finance_interest_rate) term).map (fun schedule =>
      (Dec.add schedule.total_paid (safeDec data.finance_down_payment),
        [("Down payment", safeDec data.finance_down_payment),
         ("Financed total", schedule.total_paid),
         ("Taxes", tax_amount data)])) = _
  rw [hs]
  rfl

/-- The finance branch propagates the scheduler's `DivisionByZero`. -/
theorem acquisition_finance_none (data : CarInput) (term : Int)
    (hp : data.purchase_type = some ("finance"))
    (ht : data.finance_term_months = some term)
    (hs : calculate_finance_schedule
      (Dec.add (Dec.dmax (Dec.sub (taxable_base data)
        (safeDec data.finance_down_payment)) Dec.zero) (tax_amount data))
      (safeDec data.finance_interest_rate) term = none) :
    acquisition data = none := by
  unfold acquisition
  rw [hp, ht]
  show (calculate_finance_schedule
      (Dec.add (Dec.dmax (Dec.sub (taxable_base data)
        (safeDec data.finance_down_payment)) Dec.zero) (tax_amount data))
      (safeDec data.finance_interest_rate) term).map (fun schedule =>
      (Dec.add schedule.total_paid (safeDec data.finance_down_payment),
        [("Down payment", safeDec data.finance_down_payment),
         ("Financed total", schedule.total_paid),
         ("Taxes", tax_amount data)])) = none
  rw [hs]
  rfl

/-- Inversion of the finance branch: a successful acquisition exhibits a
present term and a successful schedule. -/
theorem acquisition_finance_inv (data : CarInput) (A : Dec)
    (bd : List (String × Dec))
    (hp : data.purchase_type = some ("finance"))
    (h : acquisition data = some (A, bd)) :
    ∃ (term : Int) (sched : FinanceSchedule),
      data.finance_term_months = some term ∧
      calculate_finance_schedule
        (Dec.add (Dec.dmax (Dec.sub (taxable_base data)
          (safeDec data.finance_down_payment)) Dec.zero) (tax_amount data))
        (safeDec data.finance_interest_rate) term = some sched ∧
      A = Dec.add sched.total_paid (safeDec data.finance_down_payment) ∧
      bd = [("Down payment", safeDec data.finance_down_payment),
            ("Financed total", sched.total_paid),
            ("Taxes", tax_amount data)] := by
  cases hterm : data.finance_term_months with
  | none =>
    unfold acquisition at h
    rw [hp, hterm] at h
    exact absurd h (by simp)
  | some term =>
    refine ⟨term, ?_⟩
    cases hs : calculate_finance_schedule
        (Dec.add (Dec.dmax (Dec.sub (taxable_base data)
          (safeDec data.finance_down_payment)) Dec.zero) (tax_amount data))
        (safeDec data.finance_interest_rate) term with
    | none => rw [acquisition_finance_none data term hp hterm hs] at h
              exact absurd h (by simp)
    | some sched =>
      rw [acquisition_finance data term sched hp hterm hs] at h
      obtain ⟨hA, hbd⟩ := Prod.mk.injEq .. ▸ Option.some.inj h
      exact ⟨sched, rfl, rfl, hA.symm, hbd.symm⟩

theorem acquisition_lease (data : CarInput) (term : Int)
    (hp : data.purchase_type = some ("lease"))
    (ht : data.lease_term_months = some term) :
    acquisition data =
      some (Dec.add
        (Dec.add (Dec.mul (safeDec data.lease_monthly_payment) (Dec.ofInt term))
          (safeDec data.lease_drive_off_cost))
        ((Dec.mul (Dec.add (Dec.mul (safeDec data.lease_monthly_payment)
            (Dec.ofInt term)) (safeDec data.lease_drive_off_cost))
          (tax_rate data)).quantizeHalfUp),
      [("Lease payments", Dec.mul (safeDec data.lease_monthly_payment)
          (Dec.ofInt term)),
       ("Drive-off", safeDec data.lease_drive_off_cost),
       ("Lease taxes", (Dec.mul (Dec.add (Dec.mul
          (safeDec data.lease_monthly_payment) (Dec.ofInt term))
          (safeDec data.lease_drive_off_cost)) (tax_rate data)).quantizeHalfUp)]) := by
  unfold acquisition
  rw [hp, ht, if_neg (by simp), if_neg (by simp), if_pos rfl]

/-- The engine's result record, given the acquisition step's output. -/
theorem estimate_eq (data : CarInput) (A : Dec) (bd : List (String × Dec))
    (h : acquisition data = some (A, bd)) :
    estimate_car_cost data = some {
      total_cost := (Dec.sub (Dec.add (Dec.add A (recurring_total data))
        (safeDec data.charging_installation_cost))
        (safeDec data.residual_value)).quantizeHalfUp
      monthly_cost :=
        if data.ownership_period_years.m ≠ 0 then
          ((Dec.sub (Dec.add (Dec.add A (recurring_total data))
            (safeDec data.charging_installation_cost))
            (safeDec data.residual_value)).quantizeHalfUp.divD
            (Dec.mul data.ownership_period_years ⟨12, 0⟩)).quantizeHalfUp
        else ⟨0, -2⟩
      annual_recurring_total := (annual_recurring_total data).quantizeHalfUp
      breakdown := {
        acquisition := A.quantizeHalfUp
        energy := (Dec.add (annual_fuel_cost data)
          (annual_electric_cost data)).quantizeHalfUp
        insurance := (Dec.mul (safeDec data.insurance_cost_annual)
          data.ownership_period_years).quantizeHalfUp
        maintenance := (Dec.mul (safeDec data.maintenance_cost_annual)
          data.ownership_period_years).quantizeHalfUp
        registration := (Dec.mul (safeDec data.registration_fees_annual)
          data.ownership_period_years).quantizeHalfUp
        parking := (Dec.mul (safeDec data.parking_cost_annual)
          data.ownership_period_years).quantizeHalfUp
        other_recurring := (Dec.mul (safeDec data.other_recurring_costs)
          data.ownership_period_years).quantizeHalfUp
        charging_infrastructure :=
          (safeDec data.charging_installation_cost).quantizeHalfUp
        residual_credit := (safeDec data.residual_value).quantizeHalfUp }
      annual_fuel_cost := annual_fuel_cost data
      annual_electric_cost := annual_electric_cost data
      acquisition_breakdown := bd } := by
  unfold estimate_car_cost
  rw [h]

/-! ## Exponent bounds needed for the monotonicity claim -/

theorem schedule_total_paid_e (p i : Dec) (t : Int)
    (sched : FinanceSchedule)
    (h : calculate_finance_schedule p i t = some sched) :
    -2 ≤ sched.total_paid.e := by
  simp only [calculate_finance_schedule] at h
  split_ifs at h
  · obtain rfl := Option.some.inj h
    norm_num
  · obtain rfl := Option.some.inj h
    rw [Dec.quantizeHalfUp_e]
  · obtain rfl := Option.some.inj h
    rw [Dec.quantizeHalfUp_e]

theorem taxable_base_e (data : CarInput)
    (h1 : frac2O data.car_purchase_price)
    (h2 : frac2O data.incentives_rebates) :
    -2 ≤ (taxable_base data).e := by
  unfold taxable_base
  apply Dec.dmax_e
  · rw [Dec.sub_e]
    exact le_min (safeDec_e _ h1) (safeDec_e _ h2)
  · norm_num [Dec.zero]

/-- Whatever the purchase type, the acquisition total carries at most two
fraction digits when the monetary inputs do. -/
theorem acquisition_e (data : CarInput) (A : Dec) (bd : List (String × Dec))
    (h1 : frac2O data.car_purchase_price)
    (h2 : frac2O data.incentives_rebates)
    (h3 : frac2O data.finance_down_payment)
    (h4 : frac2O data.lease_monthly_payment)
    (h5 : frac2O data.lease_drive_off_cost)
    (h : acquisition data = some (A, bd)) :
    -2 ≤ A.e := by
  have htb := taxable_base_e data h1 h2
  have hta : (tax_amount data).e = -2 := Dec.quantizeHalfUp_e _
  by_cases hc : data.purchase_type = some ("cash")
  · rw [acquisition_cash data hc] at h
    obtain ⟨rfl, rfl⟩ := Prod.mk.injEq .. ▸ Option.some.inj h
    rw [Dec.add_e]
    omega
  by_cases hf : data.purchase_type = some ("finance")
  · obtain ⟨term, sched, hterm, hs, rfl, rfl⟩ :=
      acquisition_finance_inv data A bd hf h
    rw [Dec.add_e]
    have := schedule_total_paid_e _ _ term sched hs
    have hdp := safeDec_e _ h3
    omega
  by_cases hl : data.purchase_type = some ("lease")
  · cases hterm : data.lease_term_months with
    | none =>
      unfold acquisition at h
      rw [if_neg hc, if_neg hf, if_pos hl, hterm] at h
      exact absurd h (by simp)
    | some term =>
      rw [acquisition_lease data term hl hterm] at h
      obtain ⟨rfl, rfl⟩ := Prod.mk.injEq .. ▸ Option.some.inj h
      rw [Dec.add_e, Dec.add_e, Dec.mul_e]
      have hlp := safeDec_e _ h4
      have hdo := safeDec_e _ h5
      have hq : ((Dec.mul (Dec.add (Dec.mul (safeDec data.lease_monthly_payment)
          (Dec.ofInt term)) (safeDec data.lease_drive_off_cost))
          (tax_rate data)).quantizeHalfUp).e = -2 := Dec.quantizeHalfUp_e _
      simp only [Dec.ofInt] at hq ⊢
      omega
  · rw [acquisition_fallback data hc hf hl] at h
    obtain ⟨rfl, rfl⟩ := Prod.mk.injEq .. ▸ Option.some.inj h
    rw [Dec.add_e]
    omega

/-! ## The claims -/

/-- C1, counterexample.  For principal 10000, down payment 0, APR 0 %,
term 12, the scheduler returns monthly_payment 833.33 as claimed, but
total_paid is 10000.00, not 9999.96: the quotient 10000/12 carries the
context's 28 significant digits, and multiplying it back by 12 rounds to
exactly 10000 at the final 2-digit quantization.  The claimed 9999.96 is
wrong even as a value, not merely as a representation. -/
theorem claim_C1_counterexample :
    calculate_finance_schedule ⟨10000, 0⟩ ⟨0, 0⟩ 12 =
      some ⟨⟨83333, -2⟩, ⟨1000000, -2⟩⟩ ∧
    ¬ Dec.veq ⟨1000000, -2⟩ ⟨999996, -2⟩ := by
  constructor
  · decide
  · decide

/-- C1, amended.  With zero APR the scheduler takes the simple-division
branch: the monthly payment is the principal divided by the term, the
division being rounded to the context's 28 significant digits (not
unrounded), and round-half-up to 2 digits is applied only to the two
returned values.  On the concrete instance this yields
monthly_payment = 833.33 and total_paid = 10000.00 (not 9999.96). -/
theorem claim_C1_amended :
    calculate_finance_schedule ⟨10000, 0⟩ ⟨0, 0⟩ 12 =
      some ⟨⟨83333, -2⟩, ⟨1000000, -2⟩⟩ ∧
    ∀ (p : Dec) (t : Int), 0 < t → Dec.lt Dec.zero p.quantizeHalfEven →
      calculate_finance_schedule p ⟨0, 0⟩ t =
        some ⟨(Dec.divD p.quantizeHalfEven (Dec.ofInt t)).quantizeHalfUp,
         (Dec.mul (Dec.divD p.quantizeHalfEven (Dec.ofInt t))
           (Dec.ofInt t)).quantizeHalfUp⟩ := by
  constructor
  · decide
  · intro p t ht hp
    have hnle : ¬ (p.quantizeHalfEven.le Dec.zero) := by
      rw [Dec.le_iff, Dec.toRat_zero]
      rw [Dec.lt_iff, Dec.toRat_zero] at hp
      exact not_le.mpr hp
    simp only [calculate_finance_schedule]
    rw [if_neg (by push_neg; exact ⟨by omega, hnle⟩)]
    rw [if_pos (by decide)]

/-- C1 witness: the general zero-rate clause applied at principal
10000.00 and term 12. -/
theorem claim_C1_amended_witness :
    calculate_finance_schedule ⟨1000000, -2⟩ ⟨0, 0⟩ 12 =
      some ⟨(Dec.divD (Dec.quantizeHalfEven ⟨1000000, -2⟩)
        (Dec.ofInt 12)).quantizeHalfUp,
       (Dec.mul (Dec.divD (Dec.quantizeHalfEven ⟨1000000, -2⟩) (Dec.ofInt 12))
         (Dec.ofInt 12)).quantizeHalfUp⟩ :=
  claim_C1_amended.2 ⟨1000000, -2⟩ 12 (by omega) (by decide)

/-- C9: the decimal coercion returns exactly `Decimal("0")` for every
empty-like input (absent, empty string, numeric zero of any type or
exponent) and otherwise the exact decimal parse of the value — a decimal
is returned unchanged, an integer becomes a decimal with exponent 0, and
a non-empty string is parsed exactly by the literal parser; no binary
floating point is involved anywhere. -/
theorem claim_C9 (v : PyValue) :
    (emptyLike v → safe_decimal v = some Dec.zero) ∧
    (¬ emptyLike v →
      (∀ d, v = PyValue.dec d → safe_decimal v = some d) ∧
      (∀ n, v = PyValue.int n → safe_decimal v = some ⟨n, 0⟩) ∧
      (∀ s, v = PyValue.str s → safe_decimal v = Dec.parse s)) := by
  constructor
  · intro he
    cases v <;> simp only [emptyLike] at he <;> simp [safe_decimal, he]
  · intro hne
    refine ⟨?_, ?_, ?_⟩ <;> rintro x rfl <;> simp only [emptyLike] at hne <;>
      simp [safe_decimal, hne]

/-- C9 witness: concrete coercions, including the normalization of
`Decimal("0.00")` to `Decimal("0")` and the exact parse of `"0.1"`
(whose value is exactly one tenth — no float error). -/
theorem claim_C9_witness :
    safe_decimal (PyValue.dec ⟨0, -2⟩) = some Dec.zero ∧
    safe_decimal (PyValue.dec ⟨250, -2⟩) = some ⟨250, -2⟩ ∧
    safe_decimal (PyValue.str ("0.1")) = some ⟨1, -1⟩ ∧
    Dec.toRat ⟨1, -1⟩ = 1 / 10 ∧
    safe_decimal (PyValue.int 0) = some Dec.zero := by
  refine ⟨(claim_C9 _).1 (by decide), ?_, ?_, ?_, (claim_C9 _).1 (by decide)⟩
  · exact ((claim_C9 _).2 (by decide)).1 ⟨250, -2⟩ rfl
  · rw [((claim_C9 _).2 (by decide)).2.2 ("0.1") rfl]
    decide
  · norm_num [Dec.toRat]

/-- C2: in every result, the `"Energy"` breakdown entry is the rounded
sum of the two annual energy costs — not multiplied by the ownership
years — while the five recurring categories are each the annual value
multiplied by the ownership years, every entry quantized to 2 digits,
half up. -/
theorem claim_C2 (data : CarInput) (r : EstimateResult)
    (h : estimate_car_cost data = some r) :
    r.breakdown.energy =
      (Dec.add r.annual_fuel_cost r.annual_electric_cost).quantizeHalfUp ∧
    r.breakdown.insurance = (Dec.mul (safeDec data.insurance_cost_annual)
      data.ownership_period_years).quantizeHalfUp ∧
    r.breakdown.maintenance = (Dec.mul (safeDec data.maintenance_cost_annual)
      data.ownership_period_years).quantizeHalfUp ∧
    r.breakdown.registration = (Dec.mul (safeDec data.registration_fees_annual)
      data.ownership_period_years).quantizeHalfUp ∧
    r.breakdown.parking = (Dec.mul (safeDec data.parking_cost_annual)
      data.ownership_period_years).quantizeHalfUp ∧
    r.breakdown.other_recurring = (Dec.mul (safeDec data.other_recurring_costs)
      data.ownership_period_years).quantizeHalfUp ∧
    r.annual_fuel_cost = annual_fuel_cost data ∧
    r.annual_electric_cost = annual_electric_cost data := by
  cases hacq : acquisition data with
  | none =>
    unfold estimate_car_cost at h
    rw [hacq] at h
    exact absurd h (by simp)
  | some p =>
    obtain ⟨A, bd⟩ := p
    rw [estimate_eq data A bd hacq] at h
    obtain rfl := Option.some.inj h
    exact ⟨rfl, rfl, rfl, rfl, rfl, rfl, rfl, rfl⟩

/-- C2 witness: on `c2Example` (two ownership years) the Energy entry is
the annual 1800.00 while Insurance and Parking are doubled. -/
theorem claim_C2_witness :
    c2Result.breakdown.energy = (Dec.add c2Result.annual_fuel_cost
      c2Result.annual_electric_cost).quantizeHalfUp ∧
    c2Result.breakdown.insurance =
      (Dec.mul (safeDec c2Example.insurance_cost_annual)
        c2Example.ownership_period_years).quantizeHalfUp ∧
    c2Result.breakdown.parking =
      (Dec.mul (safeDec c2Example.parking_cost_annual)
        c2Example.ownership_period_years).quantizeHalfUp ∧
    c2Result.breakdown.energy = ⟨180000, -2⟩ ∧
    c2Result.breakdown.insurance = ⟨20000, -2⟩ := by
  have h := claim_C2 c2Example c2Result (by decide)
  exact ⟨h.1, h.2.1, h.2.2.2.2.1, by decide, by decide⟩

/-- C6: for a cash purchase, and for any unrecognized purchase type via
the cash fallback, the engine computes the taxable base as the price
less incentives clamped at zero, the tax as the rounded product with the
rate over one hundred, and the acquisition total as their sum, with the
single sub-breakdown key `"Upfront payment"`; on the §8 example (price
20000.00, tax 10 %, one year, no recurring costs) the tax is 2000.00 and
both the acquisition total and the total cost are 22000.00. -/
theorem claim_C6 :
    (∀ data : CarInput,
      (data.purchase_type = some ("cash") ∨
        (data.purchase_type ≠ some ("cash") ∧
         data.purchase_type ≠ some ("finance") ∧
         data.purchase_type ≠ some ("lease"))) →
      taxable_base data = Dec.dmax (Dec.sub (safeDec data.car_purchase_price)
        (safeDec data.incentives_rebates)) Dec.zero ∧
      tax_amount data = (Dec.mul (taxable_base data)
        (Dec.divD (safeDec data.local_tax_rate) ⟨100, 0⟩)).quantizeHalfUp ∧
      acquisition data = some (Dec.add (taxable_base data) (tax_amount data),
        [("Upfront payment", Dec.add (taxable_base data) (tax_amount data))])) ∧
    tax_amount cashExample = ⟨200000, -2⟩ ∧
    (estimate_car_cost cashExample).map (fun r => r.total_cost) =
      some ⟨2200000, -2⟩ ∧
    (estimate_car_cost cashExample).map (fun r => r.breakdown.acquisition) =
      some ⟨2200000, -2⟩ ∧
    (estimate_car_cost cashExample).map
        (fun r => r.acquisition_breakdown.map Prod.fst) =
      some [("Upfront payment")] := by
  refine ⟨?_, by decide, by decide, by decide, by decide⟩
  intro data h
  refine ⟨rfl, rfl, ?_⟩
  rcases h with h | ⟨h1, h2, h3⟩
  · exact acquisition_cash data h
  · exact acquisition_fallback data h1 h2 h3

/-- C6 witness: the universal clause applied to the §8 cash example. -/
theorem claim_C6_witness :
    acquisition cashExample =
      some (Dec.add (taxable_base cashExample) (tax_amount cashExample),
        [("Upfront payment",
          Dec.add (taxable_base cashExample) (tax_amount cashExample))]) :=
  (claim_C6.1 cashExample (Or.inl (by decide))).2.2

/-- C7: the annual fuel cost is the rounded product
`(annual_distance / 100) × consumption × price` exactly when both the
fuel consumption and the fuel price are nonzero, and exactly zero when
either is zero or absent; symmetrically for the electric channel; and
the engine never reads `fuel_type`, so no type/field consistency is
re-validated. -/
theorem claim_C7 (data : CarInput) (r : EstimateResult)
    (h : estimate_car_cost data = some r) :
    ((safeDec data.fuel_consumption_per_100km).m ≠ 0 ∧
        (safeDec data.gas_price_per_liter).m ≠ 0 →
      r.annual_fuel_cost = (Dec.mul (Dec.mul
        (Dec.divD (data.annual_mileage.getD Dec.zero) ⟨100, 0⟩)
        (safeDec data.fuel_consumption_per_100km))
        (safeDec data.gas_price_per_liter)).quantizeHalfUp) ∧
    ((safeDec data.fuel_consumption_per_100km).m = 0 ∨
        (safeDec data.gas_price_per_liter).m = 0 →
      r.annual_fuel_cost = Dec.zero) ∧
    ((safeDec data.electricity_consumption_per_100km).m ≠ 0 ∧
        (safeDec data.electricity_price_per_kwh).m ≠ 0 →
      r.annual_electric_cost = (Dec.mul (Dec.mul
        (Dec.divD (data.annual_mileage.getD Dec.zero) ⟨100, 0⟩)
        (safeDec data.electricity_consumption_per_100km))
        (safeDec data.electricity_price_per_kwh)).quantizeHalfUp) ∧
    ((safeDec data.electricity_consumption_per_100km).m = 0 ∨
        (safeDec data.electricity_price_per_kwh).m = 0 →
      r.annual_electric_cost = Dec.zero) ∧
    (∀ ft, estimate_car_cost { data with fuel_type := ft } =
      estimate_car_cost data) := by
  have hparts := claim_C2 data r h
  obtain ⟨-, -, -, -, -, -, hf, he⟩ := hparts
  refine ⟨?_, ?_, ?_, ?_, fun ft => rfl⟩
  · intro hc
    rw [hf]
    simp only [annual_fuel_cost, annualMileage]
    rw [if_pos hc]
  · intro hc
    rw [hf]
    simp only [annual_fuel_cost, annualMileage]
    rw [if_neg (by tauto)]
  · intro hc
    rw [he]
    simp only [annual_electric_cost, annualMileage]
    rw [if_pos hc]
  · intro hc
    rw [he]
    simp only [annual_electric_cost, annualMileage]
    rw [if_neg (by tauto)]

/-- C7 witness: on `c2Example` the fuel channel is active (8 l/100 km,
1.50 per liter over 15000 km gives 1800.00 per year) and the electric
channel is zero because the electricity price is absent. -/
theorem claim_C7_witness :
    c2Result.annual_fuel_cost = (Dec.mul (Dec.mul
      (Dec.divD (c2Example.annual_mileage.getD Dec.zero) ⟨100, 0⟩)
      (safeDec c2Example.fuel_consumption_per_100km))
      (safeDec c2Example.gas_price_per_liter)).quantizeHalfUp ∧
    c2Result.annual_electric_cost = Dec.zero ∧
    c2Result.annual_fuel_cost = ⟨180000, -2⟩ := by
  have h := claim_C7 c2Example c2Result (by decide)
  exact ⟨h.1 (by decide), h.2.2.2.1 (by decide), by decide⟩

/-- C4: for a financed purchase with its term present, the engine forms
the principal as the taxable base less the down payment clamped at zero,
runs the scheduler on the principal plus the tax amount with the given
rate and term, and returns the scheduled total plus the down payment as
the acquisition total, with sub-breakdown keys exactly `"Down payment"`,
`"Financed total"`, `"Taxes"`. -/
theorem claim_C4 (data : CarInput) (term : Int) (sched : FinanceSchedule)
    (hp : data.purchase_type = some ("finance"))
    (ht : data.finance_term_months = some term)
    (hs : calculate_finance_schedule
      (Dec.add (Dec.dmax (Dec.sub (taxable_base data)
        (safeDec data.finance_down_payment)) Dec.zero) (tax_amount data))
      (safeDec data.finance_interest_rate) term = some sched) :
    acquisition data =
      some (Dec.add sched.total_paid (safeDec data.finance_down_payment),
      [("Down payment", safeDec data.finance_down_payment),
       ("Financed total", sched.total_paid),
       ("Taxes", tax_amount data)]) ∧
    ∃ r, estimate_car_cost data = some r ∧
      r.acquisition_breakdown.map Prod.fst =
        [("Down payment"), ("Financed total"), ("Taxes")] ∧
      r.breakdown.acquisition =
        (Dec.add sched.total_paid
          (safeDec data.finance_down_payment)).quantizeHalfUp := by
  have hacq := acquisition_finance data term sched hp ht hs
  exact ⟨hacq, _, estimate_eq data _ _ hacq, rfl, rfl⟩

/-- C4 witness: the financed example (price 12000.00, down 2000.00,
APR 0, term 12): the scheduler is run on 10000.00 and the acquisition
total is 12000.00 with the three finance keys. -/
theorem claim_C4_witness :
    acquisition finExample =
      some (Dec.add (⟨⟨83333, -2⟩, ⟨1000000, -2⟩⟩ : FinanceSchedule).total_paid
        (safeDec finExample.finance_down_payment),
      [("Down payment", safeDec finExample.finance_down_payment),
       ("Financed total",
         (⟨⟨83333, -2⟩, ⟨1000000, -2⟩⟩ : FinanceSchedule).total_paid),
       ("Taxes", tax_amount finExample)]) ∧
    (estimate_car_cost finExample).map (fun r => r.breakdown.acquisition) =
      some ⟨1200000, -2⟩ :=
  ⟨(claim_C4 finExample 12 ⟨⟨83333, -2⟩, ⟨1000000, -2⟩⟩ (by decide) (by decide)
      (by decide)).1,
   by decide⟩

/-- C5: for a lease with its term present, the lease total is the
monthly payment times the term plus the drive-off, the lease tax is the
rounded product of the lease total with the tax rate, and the
acquisition total is their sum, with sub-breakdown keys exactly
`"Lease payments"`, `"Drive-off"`, `"Lease taxes"`; on the §8 example
(300.00 monthly, 36 months, 1000.00 drive-off, 0 % tax) the lease total
is 11800.00, the lease tax 0.00 and the acquisition total 11800.00. -/
theorem claim_C5 :
    (∀ (data : CarInput) (term : Int),
      data.purchase_type = some ("lease") →
      data.lease_term_months = some term →
      acquisition data =
        some (Dec.add
          (Dec.add (Dec.mul (safeDec data.lease_monthly_payment)
            (Dec.ofInt term)) (safeDec data.lease_drive_off_cost))
          ((Dec.mul (Dec.add (Dec.mul (safeDec data.lease_monthly_payment)
              (Dec.ofInt term)) (safeDec data.lease_drive_off_cost))
            (tax_rate data)).quantizeHalfUp),
        [("Lease payments", Dec.mul (safeDec data.lease_monthly_payment)
            (Dec.ofInt term)),
         ("Drive-off", safeDec data.lease_drive_off_cost),
         ("Lease taxes", (Dec.mul (Dec.add (Dec.mul
            (safeDec data.lease_monthly_payment) (Dec.ofInt term))
            (safeDec data.lease_drive_off_cost))
            (tax_rate data)).quantizeHalfUp)])) ∧
    Dec.add (Dec.mul (safeDec leaseExample.lease_monthly_payment)
      (Dec.ofInt 36)) (safeDec leaseExample.lease_drive_off_cost) =
      ⟨1180000, -2⟩ ∧
    (Dec.mul (Dec.add (Dec.mul (safeDec leaseExample.lease_monthly_payment)
      (Dec.ofInt 36)) (safeDec leaseExample.lease_drive_off_cost))
      (tax_rate leaseExample)).quantizeHalfUp = ⟨0, -2⟩ ∧
    (estimate_car_cost leaseExample).map (fun r => r.breakdown.acquisition) =
      some ⟨1180000, -2⟩ ∧
    (estimate_car_cost leaseExample).map (fun r => r.acquisition_breakdown) =
      some [("Lease payments", ⟨1080000, -2⟩),
            ("Drive-off", ⟨100000, -2⟩),
            ("Lease taxes", ⟨0, -2⟩)] := by
  refine ⟨?_, by decide, by decide, by decide, by decide⟩
  intro data term hp ht
  exact acquisition_lease data term hp ht

/-- C5 witness: the universal lease clause applied to the §8 lease
example. -/
theorem claim_C5_witness :
    acquisition leaseExample =
      some (Dec.add
        (Dec.add (Dec.mul (safeDec leaseExample.lease_monthly_payment)
          (Dec.ofInt 36)) (safeDec leaseExample.lease_drive_off_cost))
        ((Dec.mul (Dec.add (Dec.mul (safeDec leaseExample.lease_monthly_payment)
            (Dec.ofInt 36)) (safeDec leaseExample.lease_drive_off_cost))
          (tax_rate leaseExample)).quantizeHalfUp),
      [("Lease payments", Dec.mul (safeDec leaseExample.lease_monthly_payment)
          (Dec.ofInt 36)),
       ("Drive-off", safeDec leaseExample.lease_drive_off_cost),
       ("Lease taxes", (Dec.mul (Dec.add (Dec.mul
          (safeDec leaseExample.lease_monthly_payment) (Dec.ofInt 36))
          (safeDec leaseExample.lease_drive_off_cost))
          (tax_rate leaseExample)).quantizeHalfUp)]) :=
  claim_C5.1 leaseExample 36 (by decide) (by decide)

/-- C10: in the finance sub-breakdown the tax amount is both contained
in `"Financed total"` (it is financed into the scheduled principal) and
listed as its own `"Taxes"` entry, so the entry values sum to the
acquisition total plus the tax amount — strictly more than the
acquisition total whenever the tax amount is positive. -/
theorem claim_C10 (data : CarInput) (term : Int) (A : Dec)
    (entries : List (String × Dec))
    (hp : data.purchase_type = some ("finance"))
    (ht : data.finance_term_months = some term)
    (h : acquisition data = some (A, entries)) :
    (entries.map (fun p => p.2.toRat)).sum =
      A.toRat + (tax_amount data).toRat ∧
    (0 < (tax_amount data).toRat →
      A.toRat < (entries.map (fun p => p.2.toRat)).sum) ∧
    entries.map Prod.fst = [("Down payment"), ("Financed total"), ("Taxes")] := by
  obtain ⟨term2, sched, hterm2, hs, hA, hentries⟩ :=
    acquisition_finance_inv data A entries hp h
  subst hA
  subst hentries
  rw [Dec.toRat_add]
  simp only [List.map_cons, List.map_nil, List.sum_cons, List.sum_nil]
  refine ⟨by ring, fun htax => by linarith, by trivial⟩

/-- C10 witness: with a 10 % tax the financed example's sub-breakdown
(2000.00 + 11200.00 + 1200.00 = 14400.00) sums to the acquisition total
13200.00 plus the 1200.00 tax — strictly more than the total. -/
theorem claim_C10_witness :
    ([("Down payment", (⟨200000, -2⟩ : Dec)),
      ("Financed total", (⟨1120000, -2⟩ : Dec)),
      ("Taxes", (⟨120000, -2⟩ : Dec))].map (fun p => p.2.toRat)).sum =
      Dec.toRat ⟨1320000, -2⟩ + (tax_amount finTaxExample).toRat ∧
    Dec.toRat ⟨1320000, -2⟩ <
      ([("Down payment", (⟨200000, -2⟩ : Dec)),
        ("Financed total", (⟨1120000, -2⟩ : Dec)),
        ("Taxes", (⟨120000, -2⟩ : Dec))].map (fun p => p.2.toRat)).sum := by
  have h := claim_C10 finTaxExample 12 ⟨1320000, -2⟩
    [("Down payment", ⟨200000, -2⟩), ("Financed total", ⟨1120000, -2⟩),
     ("Taxes", ⟨120000, -2⟩)] (by decide) (by decide) (by decide)
  refine ⟨h.1, h.2.1 ?_⟩
  rw [show tax_amount finTaxExample = ⟨120000, -2⟩ from by decide]
  norm_num [Dec.toRat]

/-- The scheduler succeeds whenever the monthly rate is zero or the
payment divisor `factor - 1` is nonzero: only the `DivisionByZero` path
returns `none`. -/
theorem calculate_finance_schedule_isSome (p i : Dec) (t : Int)
    (h : (monthly_rate_of i).veq Dec.zero ∨ (factor_den i t).m ≠ 0) :
    (calculate_finance_schedule p i t).isSome = true := by
  simp only [calculate_finance_schedule]
  split_ifs with h1 h2 h3
  · rfl
  · rfl
  · rcases h with h | h
    · exact absurd h h2
    · exact absurd h3 h
  · rfl

/-- The acquisition step is defined whenever the required term fields are
present and, on the finance branch, the scheduler's divisor does not
vanish. -/
theorem acquisition_isSome (data : CarInput)
    (hf : data.purchase_type = some ("finance") →
      data.finance_term_months.isSome)
    (hl : data.purchase_type = some ("lease") →
      data.lease_term_months.isSome)
    (hd : ∀ term : Int, data.purchase_type = some ("finance") →
      data.finance_term_months = some term →
      (monthly_rate_of (safeDec data.finance_interest_rate)).veq Dec.zero ∨
      (factor_den (safeDec data.finance_interest_rate) term).m ≠ 0) :
    (acquisition data).isSome = true := by
  by_cases h1 : data.purchase_type = some ("cash")
  · rw [acquisition_cash data h1]
    rfl
  by_cases h2 : data.purchase_type = some ("finance")
  · obtain ⟨t, ht⟩ := Option.isSome_iff_exists.mp (hf h2)
    have hres := calculate_finance_schedule_isSome
      (Dec.add (Dec.dmax (Dec.sub (taxable_base data)
        (safeDec data.finance_down_payment)) Dec.zero) (tax_amount data))
      (safeDec data.finance_interest_rate) t (hd t h2 ht)
    obtain ⟨sched, hs⟩ := Option.isSome_iff_exists.mp hres
    rw [acquisition_finance data t sched h2 ht hs]
    rfl
  by_cases h3 : data.purchase_type = some ("lease")
  · obtain ⟨t, ht⟩ := Option.isSome_iff_exists.mp (hl h3)
    rw [acquisition_lease data t h3 ht]
    rfl
  · rw [acquisition_fallback data h1 h2 h3]
    rfl

set_option maxRecDepth 8000 in
/-- C8, counterexample.  The engine is **not** total on the §3 domain:
on a valid financed input with the positive interest rate `Decimal("1E-40")`,
`1 + monthly_rate` context-rounds (28 significant digits) to exactly 1,
so `factor - Decimal(1)` is zero and the unguarded division raises
`decimal.DivisionByZero` — the engine returns no result. -/
theorem claim_C8_counterexample :
    ValidInput tinyRateInput ∧ estimate_car_cost tinyRateInput = none :=
  ⟨by decide, by decide⟩

/-- C8 (amended): the engine returns a result on every valid input whose
finance branch, if taken, has a zero monthly rate or a nonvanishing
payment divisor `factor - 1` (true of every form-accepted rate, which
carries at most 3 fraction digits, but not of all positive `Decimal`
rates); a zero ownership horizon takes the guarded branch and yields a
monthly cost of exactly `Decimal("0.00")` with no division; and the
scheduler returns zero for both outputs whenever the term or the
principal is not positive. -/
theorem claim_C8_amended :
    (∀ data : CarInput, ValidInput data →
      (∀ term : Int, data.purchase_type = some ("finance") →
        data.finance_term_months = some term →
        (monthly_rate_of (safeDec data.finance_interest_rate)).veq Dec.zero ∨
        (factor_den (safeDec data.finance_interest_rate) term).m ≠ 0) →
      (estimate_car_cost data).isSome = true) ∧
    (∀ (data : CarInput) (r : EstimateResult), estimate_car_cost data = some r →
      data.ownership_period_years.m = 0 → r.monthly_cost = ⟨0, -2⟩) ∧
    (∀ (p i : Dec) (t : Int), t ≤ 0 ∨ p.le Dec.zero →
      calculate_finance_schedule p i t = some ⟨⟨0, 0⟩, ⟨0, 0⟩⟩) := by
  refine ⟨?_, ?_, ?_⟩
  · intro data hv hd
    cases hacq : acquisition data with
    | some p =>
      obtain ⟨A, bd⟩ := p
      rw [estimate_eq data A bd hacq]
      rfl
    | none =>
      exfalso
      have hs := acquisition_isSome data (fun h => (hv.1 h).2)
        (fun h => (hv.2.1 h).1) hd
      rw [hacq] at hs
      exact absurd hs (by simp)
  · intro data r h h0
    cases hacq : acquisition data with
    | none =>
      unfold estimate_car_cost at h
      rw [hacq] at h
      exact absurd h (by simp)
    | some p =>
      obtain ⟨A, bd⟩ := p
      rw [estimate_eq data A bd hacq] at h
      obtain rfl := Option.some.inj h
      simp only [h0, ne_eq, not_true_eq_false, if_false, ite_false]
  · intro p i t h
    simp only [calculate_finance_schedule]
    rw [if_pos]
    rcases h with h | h
    · exact Or.inl h
    · right
      rw [Dec.le_zero_iff] at h ⊢
      exact Dec.quantizeHalfEven_m_nonpos p h

/-- C8 witness: a valid cash input and a valid zero-rate financed input
are handled; a zero-year horizon gives a 0.00 monthly cost; the
scheduler's guard fires for a zero term and for a non-positive
principal. -/
theorem claim_C8_amended_witness :
    (estimate_car_cost cashExample).isSome = true ∧
    (estimate_car_cost finExample).isSome = true ∧
    zeroResult.monthly_cost = ⟨0, -2⟩ ∧
    calculate_finance_schedule ⟨500, 0⟩ ⟨5, 0⟩ 0 = some ⟨⟨0, 0⟩, ⟨0, 0⟩⟩ ∧
    calculate_finance_schedule ⟨-500, 0⟩ ⟨5, 0⟩ 24 = some ⟨⟨0, 0⟩, ⟨0, 0⟩⟩ :=
  ⟨claim_C8_amended.1 cashExample (by decide)
      (fun _ h _ => absurd h (by decide)),
   claim_C8_amended.1 finExample (by decide)
      (fun _ _ _ => Or.inl (by decide)),
   claim_C8_amended.2.1 zeroYearsInput zeroResult (by decide) (by decide),
   claim_C8_amended.2.2 ⟨500, 0⟩ ⟨5, 0⟩ 0 (Or.inl (by omega)),
   claim_C8_amended.2.2 ⟨-500, 0⟩ ⟨5, 0⟩ 24 (Or.inr (by decide))⟩

/-- C3, counterexample.  On a valid cash input with price 100.00 and no
other costs, raising the residual value from absent (zero) by the
strictly positive amount 0.005 leaves the rounded total cost unchanged
at 100.00: the pre-rounding total 99.995 quantizes half-up back to
100.00, so the total neither decreases strictly nor decreases by the
delta. -/
theorem claim_C3_counterexample :
    ValidInput resBase ∧
    Dec.lt Dec.zero ⟨5, -3⟩ ∧
    (estimate_car_cost resBase).map (fun r => r.total_cost) =
      some ⟨10000, -2⟩ ∧
    (estimate_car_cost (withResidual resBase ⟨5, -3⟩)).map
      (fun r => r.total_cost) = some ⟨10000, -2⟩ := by
  refine ⟨by decide, by decide, by decide, by decide⟩

theorem safeDec_some_of_ne (d : Dec) (h : ¬ d.m = 0) : safeDec (some d) = d := by
  simp only [safeDec]
  rw [if_neg h]

/-- C3, amended.  On a valid input whose monetary fields carry at most
two fraction digits (as the upstream form guarantees), increasing the
residual value by a positive whole number of cents `k` decreases the
total cost by exactly `k` cents, hence strictly.  (Sub-cent increases
can vanish in the half-up rounding, as the counterexample shows.) -/
theorem claim_C3_amended (data : CarInput) (k : Int) (r r2 : EstimateResult)
    (hk : 0 < k)
    (hv : ValidInput data)
    (hp1 : frac2O data.car_purchase_price)
    (hp2 : frac2O data.incentives_rebates)
    (hp3 : frac2O data.finance_down_payment)
    (hp4 : frac2O data.lease_monthly_payment)
    (hp5 : frac2O data.lease_drive_off_cost)
    (hp6 : frac2O data.charging_installation_cost)
    (hp7 : frac2O data.residual_value)
    (h1 : estimate_car_cost data = some r)
    (h2 : estimate_car_cost (withResidual data
      (Dec.add (safeDec data.residual_value) ⟨k, -2⟩)) = some r2) :
    r2.total_cost = Dec.sub r.total_cost ⟨k, -2⟩ ∧
    Dec.lt r2.total_cost r.total_cost := by
  have hres_m : 0 ≤ (safeDec data.residual_value).m :=
    safeDec_m_nonneg _ hv.2.2.1
  have hvm : 0 < (Dec.add (safeDec data.residual_value) ⟨k, -2⟩).m := by
    simp only [Dec.add]
    have t1 : (0 : Int) ≤ (safeDec data.residual_value).m *
        10 ^ ((safeDec data.residual_value).e -
          min (safeDec data.residual_value).e (-2)).toNat :=
      mul_nonneg hres_m (by positivity)
    have t0 : (0 : Int) < 10 ^ ((-2 - min (safeDec data.residual_value).e
        (-2) : Int)).toNat := by positivity
    nlinarith
  have hmne : ¬ (Dec.add (safeDec data.residual_value) ⟨k, -2⟩).m = 0 := by
    omega
  have hsd : safeDec (withResidual data
      (Dec.add (safeDec data.residual_value) ⟨k, -2⟩)).residual_value =
      Dec.add (safeDec data.residual_value) ⟨k, -2⟩ := by
    exact safeDec_some_of_ne _ hmne
  cases hacq : acquisition data with
  | none =>
    unfold estimate_car_cost at h1
    rw [hacq] at h1
    exact absurd h1 (by simp)
  | some p =>
    obtain ⟨A, bd⟩ := p
    have hacq2 : acquisition (withResidual data
        (Dec.add (safeDec data.residual_value) ⟨k, -2⟩)) = some (A, bd) := hacq
    rw [estimate_eq data A bd hacq] at h1
    rw [estimate_eq _ A bd hacq2] at h2
    obtain rfl := Option.some.inj h1
    obtain rfl := Option.some.inj h2
    have hRw : recurring_total (withResidual data
        (Dec.add (safeDec data.residual_value) ⟨k, -2⟩)) =
        recurring_total data := rfl
    have hCw : safeDec (withResidual data
        (Dec.add (safeDec data.residual_value) ⟨k, -2⟩)).charging_installation_cost =
        safeDec data.charging_installation_cost := rfl
    have hAe : -2 ≤ A.e := acquisition_e data A bd hp1 hp2 hp3 hp4 hp5 hacq
    have hRe : (recurring_total data).e = -2 := Dec.quantizeHalfUp_e _
    have hCe : -2 ≤ (safeDec data.charging_installation_cost).e :=
      safeDec_e _ hp6
    have hre : -2 ≤ (safeDec data.residual_value).e := safeDec_e _ hp7
    have hT2e : -2 ≤ (Dec.sub (Dec.add (Dec.add A (recurring_total data))
        (safeDec data.charging_installation_cost))
        (Dec.add (safeDec data.residual_value) ⟨k, -2⟩)).e := by
      rw [Dec.sub_e, Dec.add_e, Dec.add_e, Dec.add_e]
      simp only [le_min_iff]
      exact ⟨⟨⟨hAe, by omega⟩, hCe⟩, by omega⟩
    have hTe : -2 ≤ (Dec.sub (Dec.add (Dec.add A (recurring_total data))
        (safeDec data.charging_installation_cost))
        (safeDec data.residual_value)).e := by
      rw [Dec.sub_e, Dec.add_e, Dec.add_e]
      simp only [le_min_iff]
      exact ⟨⟨⟨hAe, by omega⟩, hCe⟩, hre⟩
    have hkcent : Dec.toRat ⟨k, -2⟩ = (k : ℚ) / 100 := by
      unfold Dec.toRat
      norm_num
      ring
    have hval : (Dec.sub (Dec.add (Dec.add A (recurring_total data))
        (safeDec data.charging_installation_cost))
        (Dec.add (safeDec data.residual_value) ⟨k, -2⟩)).toRat =
        (Dec.sub (Dec.add (Dec.add A (recurring_total data))
        (safeDec data.charging_installation_cost))
        (safeDec data.residual_value)).toRat - (k : ℚ) / 100 := by
      simp only [Dec.toRat_sub, Dec.toRat_add, hkcent]
      ring
    have hshift := Dec.quantize_shift _ _ k hT2e hTe hval
    dsimp only
    rw [hRw, hCw, hsd]
    refine ⟨hshift, ?_⟩
    rw [hshift, Dec.lt_iff, Dec.toRat_sub, hkcent]
    have hkq : (0 : ℚ) < (k : ℚ) := by exact_mod_cast hk
    linarith

/-- C3 witness: on the 100.00 cash input, raising the residual by one
whole cent lowers the total cost from 100.00 to exactly 99.99. -/
theorem claim_C3_amended_witness :
    resResult2.total_cost = Dec.sub resResult.total_cost ⟨1, -2⟩ ∧
    Dec.lt resResult2.total_cost resResult.total_cost :=
  claim_C3_amended resBase 1 resResult resResult2 (by omega) (by decide)
    (by decide) (by decide) (by decide) (by decide) (by decide) (by decide)
    (by decide) (by decide) (by decide)
